import Mathlib

/-!
Verification development for the `httpretry` Go package
(`github.com/dings-things/httpretry`).

The package wraps an `http.RoundTripper` with a retry loop
(`retriableTransport.RoundTrip` in `client.go`).  The shallow embedding
below translates the relevant Go code into Lean:

* Go `map[int]string` registries become association lists
  `List (Int × String)` with first-match lookup (`lookupStatus`); the
  construction `extendDefault` only inserts keys that are absent, so the
  lists stay duplicate-free and model map semantics exactly.
* Go errors become `Option String` carrying the error message;
  `multierr.Append` on a possibly-nil error becomes `appendErr`
  (appending nothing for `none`, matching `multierr`), and the aggregated
  `allErrors` value becomes the ordered `List String` of component
  messages.  `errors.Wrapf(err, "attempt(%d)", n)` becomes `wrapAttempt`
  (producing `attempt(n): msg`, and `none` for a nil cause, exactly as
  `pkg/errors.Wrapf` returns nil for a nil cause).
* `time.Duration` becomes `Int` nanoseconds; Go's 64-bit signed integer
  overflow in `defaultBackoffPolicy` (`time.Duration(1<<attempt) *
  time.Second`) is modelled explicitly with `wrap64`.
* The behaviour of the underlying transport and of the request context
  is an oracle `Env`: for each attempt number it says whether the parent
  context is already expired at the top of that loop iteration, and what
  the race between the per-attempt timer and the underlying
  `RoundTripper.RoundTrip` call produces (`AttemptResult.timeout` when
  the timer fires first, `AttemptResult.completed resp err` when the
  call finishes first).  The underlying transport is invoked (the
  goroutine is started) in both cases, so both count as attempts.
* The `for` loop of `RoundTrip` becomes `roundTripAux`, structurally
  recursive on the number of loop iterations still allowed by the loop
  condition `attempt <= maxRetries+1`.  Go evaluates `maxRetries+1` in
  wrapping int64 arithmetic, so the fuel is
  `(wrap64 (maxRetries + 1)).toNat` (starting at attempt 1): at
  `maxRetries = 2^63 - 1` the wrapped bound is negative and the loop
  body never runs, exactly as in Go.  The in-loop comparison
  `attempt > rt.maxRetries` and the `attempt+1` increment never
  overflow for int64-representable `maxRetries` (the exhaustion break
  fires first), so they stay unwrapped.  The result record also carries trace
  information that the claims talk about: how many times the underlying
  transport was invoked, the attempt numbers passed to the backoff
  policy, and which exit of the loop fired.
* `http.DefaultTransport` — which `newRetriableTransport` mutates in
  place — is modelled by explicit state passing: `newRetriableTransport`
  takes the current shared transport state and returns the updated one.
-/

/-- Wraps a mathematical integer to Go's 64-bit signed integer range,
modelling int64 overflow. -/
def wrap64 (x : Int) : Int :=
  (x + 9223372036854775808) % 18446744073709551616 - 9223372036854775808

/-- Models `time.Second`: one second in nanoseconds (`time.Duration` is an
int64 count of nanoseconds). -/
def second : Int := 1000000000

/-- Models `defaultBackoffPolicy` from `settings.go` options file:
`time.Duration(1<<attempt) * time.Second`, with 64-bit wraparound on the
shift result and on the multiplication. -/
def defaultBackoffPolicy (attempt : Nat) : Int :=
  wrap64 (wrap64 ((1 <<< attempt : Nat) : Int) * second)

/-- Models `http.StatusText` from Go's `net/http`: the standard textual
description of an HTTP status code, `""` for unknown codes. -/
def statusText (code : Int) : String :=
  match code with
  | 100 => "Continue"
  | 101 => "Switching Protocols"
  | 102 => "Processing"
  | 103 => "Early Hints"
  | 200 => "OK"
  | 201 => "Created"
  | 202 => "Accepted"
  | 203 => "Non-Authoritative Information"
  | 204 => "No Content"
  | 205 => "Reset Content"
  | 206 => "Partial Content"
  | 207 => "Multi-Status"
  | 208 => "Already Reported"
  | 226 => "IM Used"
  | 300 => "Multiple Choices"
  | 301 => "Moved Permanently"
  | 302 => "Found"
  | 303 => "See Other"
  | 304 => "Not Modified"
  | 305 => "Use Proxy"
  | 307 => "Temporary Redirect"
  | 308 => "Permanent Redirect"
  | 400 => "Bad Request"
  | 401 => "Unauthorized"
  | 402 => "Payment Required"
  | 403 => "Forbidden"
  | 404 => "Not Found"
  | 405 => "Method Not Allowed"
  | 406 => "Not Acceptable"
  | 407 => "Proxy Authentication Required"
  | 408 => "Request Timeout"
  | 409 => "Conflict"
  | 410 => "Gone"
  | 411 => "Length Required"
  | 412 => "Precondition Failed"
  | 413 => "Request Entity Too Large"
  | 414 => "Request URI Too Long"
  | 415 => "Unsupported Media Type"
  | 416 => "Requested Range Not Satisfiable"
  | 417 => "Expectation Failed"
  | 418 => "I\x27m a teapot"
  | 421 => "Misdirected Request"
  | 422 => "Unprocessable Entity"
  | 423 => "Locked"
  | 424 => "Failed Dependency"
  | 425 => "Too Early"
  | 426 => "Upgrade Required"
  | 428 => "Precondition Required"
  | 429 => "Too Many Requests"
  | 431 => "Request Header Fields Too Large"
  | 451 => "Unavailable For Legal Reasons"
  | 500 => "Internal Server Error"
  | 501 => "Not Implemented"
  | 502 => "Bad Gateway"
  | 503 => "Service Unavailable"
  | 504 => "Gateway Timeout"
  | 505 => "HTTP Version Not Supported"
  | 506 => "Variant Also Negotiates"
  | 507 => "Insufficient Storage"
  | 508 => "Loop Detected"
  | 510 => "Not Extended"
  | 511 => "Network Authentication Required"
  | _ => ""

/-- Lookup in a registry association list, modelling Go map indexing
`m[code]` with its `ok` flag as `Option`. -/
def lookupStatus (m : List (Int × String)) (code : Int) : Option String :=
  (m.find? (fun p => p.1 == code)).map (fun p => p.2)

/-- Models `defaultRetryStatusMap` from `client.go`: status codes 500,
502, 503, 504 mapped to their (Korean) retry reasons. -/
def defaultRetryStatusMap : List (Int × String) :=
  [(500, "서버 처리 불가로 재시도"),
   (502, "게이트웨이 오류로 재시도"),
   (503, "서비스 사용 불가상태로 재시도"),
   (504, "게이트웨이 타임아웃으로 재시도")]

/-- Models one iteration of the second loop of `extendDefault`: insert
`code ↦ http.StatusText(code)` only when `code` is not already bound. -/
def extendStep (m : List (Int × String)) (code : Int) : List (Int × String) :=
  if (lookupStatus m code).isSome then m else m ++ [(code, statusText code)]

/-- Models `extendDefault` from `client.go`: copy the default retry
status map, then insert each additional code that is not already
present, with `http.StatusText` as its reason. -/
def extendDefault (additional : List Int) : List (Int × String) :=
  additional.foldl extendStep defaultRetryStatusMap

/-- Models the `Settings` struct of `settings.go`.  Durations are `Int`
nanoseconds; the Go function-typed field `BackoffPolicy` is an `Option`
so the nil check of `newRetriableTransport` can be expressed. -/
structure Settings where
  maxRetry : Int
  debugMode : Bool
  insecure : Bool
  maxIdleConns : Int
  idleConnTimeout : Int
  tlsHandshakeTimeout : Int
  expectContinueTimeout : Int
  responseHeaderTimeout : Int
  requestTimeout : Int
  backoffPolicy : Option (Nat → Int)

/-- Models `NewHTTPSettings`: the hard-coded default settings record
(note `Insecure: true` in the source), with the option closures applied
left to right. -/
def NewHTTPSettings (opts : List (Settings → Settings)) : Settings :=
  opts.foldl (fun s o => o s)
    { maxRetry := 3
      debugMode := false
      insecure := true
      maxIdleConns := 15
      idleConnTimeout := 90 * second
      tlsHandshakeTimeout := 10 * second
      expectContinueTimeout := 1 * second
      responseHeaderTimeout := 10 * second
      requestTimeout := 10 * second
      backoffPolicy := some defaultBackoffPolicy }

/-- Models the mutable fields of the shared `*http.Transport` that
`newRetriableTransport` obtains by type-asserting `http.DefaultTransport`.
`forceAttemptHTTP2` stands for the fields of the default transport that
`newRetriableTransport` does not touch. -/
structure HTTPTransport where
  maxIdleConns : Int
  idleConnTimeout : Int
  tlsHandshakeTimeout : Int
  expectContinueTimeout : Int
  responseHeaderTimeout : Int
  tlsMinVersion : Int
  insecureSkipVerify : Bool
  forceAttemptHTTP2 : Bool
deriving DecidableEq

/-- Models the field assignments of the `transport 설정` block of
`newRetriableTransport`: the shared transport's idle-connection and
timeout fields are overwritten from the settings and its TLS config is
replaced by a fresh one with `MinVersion: TLS12` and `InsecureSkipVerify`
first `false`, then set `true` when `settings.Insecure` holds. -/
def applyTransportSettings (s : Settings) (t : HTTPTransport) : HTTPTransport :=
  { t with
    maxIdleConns := s.maxIdleConns
    idleConnTimeout := s.idleConnTimeout
    tlsHandshakeTimeout := s.tlsHandshakeTimeout
    expectContinueTimeout := s.expectContinueTimeout
    responseHeaderTimeout := s.responseHeaderTimeout
    tlsMinVersion := 771
    insecureSkipVerify := if s.insecure then true else false }

/-- Models the `retriableTransport` struct of `client.go` (without the
embedded `RoundTripper`, whose behaviour is the oracle `Env` below). -/
structure RetriableTransport where
  requestTimeout : Int
  maxRetries : Int
  retryStatusCodes : List (Int × String)
  backoffPolicy : Nat → Int
  debugMode : Bool

/-- Models `newRetriableTransport`: nil settings fall back to
`NewHTTPSettings()`; the shared default transport state is mutated via
`applyTransportSettings` (explicit state passing for the in-place
mutation of `http.DefaultTransport`); a nil backoff policy falls back to
`defaultBackoffPolicy`; the retry map is `extendDefault` of the variadic
status codes.  Returns the custom transport and the updated shared
transport state. -/
def newRetriableTransport (settings : Option Settings) (retryStatusCodes : List Int)
    (t : HTTPTransport) : RetriableTransport × HTTPTransport :=
  let s := match settings with
    | none => NewHTTPSettings []
    | some s => s
  let t := applyTransportSettings s t
  let retryMap := extendDefault retryStatusCodes
  let policy := match s.backoffPolicy with
    | none => defaultBackoffPolicy
    | some p => p
  (⟨s.requestTimeout, s.maxRetry, retryMap, policy, s.debugMode⟩, t)

/-- Concrete value standing for the process-global `http.DefaultTransport`
before any client construction (field values as in Go's `net/http`
default transport; `responseHeaderTimeout` is zero there). -/
def goDefaultTransport : HTTPTransport :=
  { maxIdleConns := 100
    idleConnTimeout := 90 * second
    tlsHandshakeTimeout := 10 * second
    expectContinueTimeout := 1 * second
    responseHeaderTimeout := 0
    tlsMinVersion := 0
    insecureSkipVerify := false
    forceAttemptHTTP2 := true }

/-- Models the part of `*http.Response` that `RoundTrip` inspects: only
the status code (the retry decision never reads bodies). -/
structure Response where
  statusCode : Int
deriving DecidableEq

/-- Outcome of the race, inside one loop iteration, between the
per-attempt timer and the goroutine running
`rt.RoundTripper.RoundTrip(req)`: either the timer fires first
(`timeout`; the call's eventual result is discarded) or the call
completes first with a possibly-nil response and a possibly-nil error. -/
inductive AttemptResult where
  | timeout
  | completed (response : Option Response) (err : Option String)

/-- Oracle for one execution of `RoundTrip`: per attempt number, whether
`req.Context().Err() != nil` already holds at the top of that loop
iteration, and what the race of that attempt produces. -/
structure Env where
  ctxCancelled : Nat → Bool
  outcome : Nat → AttemptResult

/-- Models the `statusCode` local of `RoundTrip`: `-1` when the response
is nil, the response's status code otherwise. -/
def statusOf (resp : Option Response) : Int :=
  match resp with
  | some r => r.statusCode
  | none => -1

/-- Models `retriableTransport.shouldRetry`: a non-nil error is always
retried with that error as reason; otherwise a status code registered in
`retryStatusCodes` is retried with the registered reason; otherwise no
retry and a nil reason. -/
def shouldRetry (rt : RetriableTransport) (statusCode : Int) (err : Option String) :
    Bool × Option String :=
  match err with
  | some e => (true, some e)
  | none =>
    match lookupStatus rt.retryStatusCodes statusCode with
    | some reason => (true, some reason)
    | none => (false, none)

/-- Message of `fmt.Errorf("request timeout attempt(%d)", attempt)`. -/
def timeoutMsg (attempt : Nat) : String :=
  "request timeout attempt(" ++ toString attempt ++ ")"

/-- Models `errors.Wrapf(retryErr, "attempt(%d)", attempt)`: prepends the
attempt tag to the cause's message, and stays nil for a nil cause (as
`pkg/errors.Wrapf` does). -/
def wrapAttempt (attempt : Nat) (e : Option String) : Option String :=
  e.map (fun m => "attempt(" ++ toString attempt ++ "): " ++ m)

/-- Message of `errors.New("cancelled from parent context")`. -/
def cancelledMsg : String := "cancelled from parent context"

/-- Message of `errors.New("max retries reached")`. -/
def maxRetriesMsg : String := "max retries reached"

/-- Models `multierr.Append(allErrors, e)` for a possibly-nil `e`:
appending a nil error leaves the aggregate unchanged. -/
def appendErr (errs : List String) (e : Option String) : List String :=
  errs ++ e.toList

/-- Which exit of the `RoundTrip` loop fired: the `return response, nil`
statement (`success`), the `max retries reached` break (`exhausted`), the
parent-context break (`cancelled`), or the loop condition
`attempt <= maxRetries+1` failing (`loopEnd`, reachable only with a
negative `maxRetries`). -/
inductive Terminal where
  | success
  | exhausted
  | cancelled
  | loopEnd
deriving DecidableEq

/-- Result of `RoundTrip` plus execution trace: the returned response,
the components of the returned error in order (`[]` for a nil error),
the number of invocations of the underlying transport, the attempt
numbers passed to `backoffPolicy` in order, and which loop exit fired. -/
structure RoundTripResult where
  response : Option Response
  errs : List String
  attemptsMade : Nat
  backoffCalls : List Nat
  terminal : Terminal
deriving DecidableEq

/-- Models the `for` loop of `retriableTransport.RoundTrip`, structurally
recursive on the remaining iterations allowed by the loop condition.
Each iteration: first the parent-context check, then the
`attempt > maxRetries` exhaustion check, then the attempt race; a timer
win appends the timeout error and loops (with no backoff call); a
completed attempt consults `shouldRetry` — on retry it appends the
wrapped reason, records the backoff invocation for this attempt number
and loops, otherwise it returns `(response, nil)`. -/
def roundTripAux (rt : RetriableTransport) (env : Env) :
    Nat → Nat → List String → Nat → List Nat → RoundTripResult
  | 0, _, errs, made, backs => ⟨none, errs, made, backs, .loopEnd⟩
  | fuel + 1, attempt, errs, made, backs =>
    if env.ctxCancelled attempt then
      ⟨none, errs ++ [cancelledMsg], made, backs, .cancelled⟩
    else if rt.maxRetries < (attempt : Int) then
      ⟨none, errs ++ [maxRetriesMsg], made, backs, .exhausted⟩
    else
      match env.outcome attempt with
      | .timeout =>
        roundTripAux rt env fuel (attempt + 1)
          (errs ++ [timeoutMsg attempt]) (made + 1) backs
      | .completed resp respErr =>
        let v := shouldRetry rt (statusOf resp) respErr
        if v.1 then
          roundTripAux rt env fuel (attempt + 1)
            (appendErr errs (wrapAttempt attempt v.2)) (made + 1) (backs ++ [attempt])
        else
          ⟨resp, [], made + 1, backs, .success⟩

/-- Models `retriableTransport.RoundTrip`: run the loop from attempt 1
with empty aggregate, for as many iterations as the Go loop condition
`attempt <= rt.maxRetries+1` allows.  The bound `rt.maxRetries+1` is
computed in Go's wrapping int64 arithmetic (`wrap64`), so at
`maxRetries = 2^63 - 1` it wraps to the most negative int64 and the
loop body never runs. -/
def roundTrip (rt : RetriableTransport) (env : Env) : RoundTripResult :=
  roundTripAux rt env (wrap64 (rt.maxRetries + 1)).toNat 1 [] 0 []

/-- Specification-side description of what one loop iteration appends to
`allErrors` when attempt `a` is performed and retried: the timeout
message when the timer wins, the wrapped retry reason when the attempt
completes with a retryable verdict, nothing when the verdict is not to
retry. -/
def attemptRetryMsg (rt : RetriableTransport) (env : Env) (a : Nat) : Option String :=
  match env.outcome a with
  | .timeout => some (timeoutMsg a)
  | .completed resp respErr =>
    let v := shouldRetry rt (statusOf resp) respErr
    if v.1 then wrapAttempt a v.2 else none

/-- Specification-side description of whether performing attempt `a`
invokes the backoff policy: only a completed attempt with a retryable
verdict does (the timeout branch of the `select` never sleeps). -/
def attemptBackoffCalled (rt : RetriableTransport) (env : Env) (a : Nat) : Bool :=
  match env.outcome a with
  | .timeout => false
  | .completed resp respErr => (shouldRetry rt (statusOf resp) respErr).1

/-- Final message appended by each non-success loop exit. -/
def terminalTail (t : Terminal) : List String :=
  match t with
  | .cancelled => [cancelledMsg]
  | .exhausted => [maxRetriesMsg]
  | _ => []

/-- Models the `WithMaxRetry` option of the settings package: overwrite
the `MaxRetry` field. -/
def WithMaxRetry (maxRetry : Int) : Settings → Settings :=
  fun s => { s with maxRetry := maxRetry }

/-- The retriable transport built by `NewClient(nil)`: nil settings,
no additional retry status codes, constructed over the shared default
transport.  Its `maxRetries` is 3 and its registry is the default map. -/
def defaultClientTransport : RetriableTransport :=
  (newRetriableTransport none [] goDefaultTransport).1

/-- Environment in which the parent context never expires and every
attempt completes with a 503 Service Unavailable response and no
transport error (a server that always answers 503). -/
def envAlways503 : Env :=
  ⟨fun _ => false, fun _ => AttemptResult.completed (some ⟨503⟩) none⟩

/-- Environment in which the parent context is already expired when
`RoundTrip` is entered (the underlying transport would answer 200 if it
were ever asked). -/
def envPreCancelled : Env :=
  ⟨fun _ => true, fun _ => AttemptResult.completed (some ⟨200⟩) none⟩

/-- Environment in which attempt 1 loses the race against the
per-attempt timer and every later attempt completes with a 503. -/
def envTimeoutThen503 : Env :=
  ⟨fun _ => false,
   fun a => if a = 1 then AttemptResult.timeout
            else AttemptResult.completed (some ⟨503⟩) none⟩

/-- Environment in which every attempt completes with a nil response and
a nil error (an underlying round tripper violating the `RoundTripper`
contract, which `RoundTrip` does not guard against). -/
def envNilNil : Env :=
  ⟨fun _ => false, fun _ => AttemptResult.completed none none⟩

theorem filterMap_cons_eq_toList_append {α β : Type} (f : α → Option β) (a : α)
    (l : List α) :
    List.filterMap f (a :: l) = (f a).toList ++ List.filterMap f l := by
  cases h : f a <;> simp [h]

/-- Identity range of `wrap64`: Go int64 arithmetic that stays within
the 64-bit signed range is exact. -/
theorem wrap64_eq_of_bounded (x : Int) (h₁ : -9223372036854775808 ≤ x)
    (h₂ : x < 9223372036854775808) : wrap64 x = x := by
  unfold wrap64
  omega

/-- Trace invariant of the `RoundTrip` loop: starting an iteration at
attempt number `attempt` with aggregate `errs`, `made` attempts already
performed and `backs` backoff invocations already recorded, the final
result `r` performs between `made` and `made + fuel` attempts; on the
success exit the returned error is empty and the returned response is
the completed outcome of some attempt with a non-retry verdict; on every
other exit the aggregate is `errs` followed by the retry message of each
attempt performed here, in attempt order, followed by the exit's
terminal message; and the backoff policy is invoked exactly for the
performed attempts whose completed outcome had a retryable verdict. -/
theorem roundTripAux_trace (rt : RetriableTransport) (env : Env) :
    ∀ fuel attempt errs made backs r,
      roundTripAux rt env fuel attempt errs made backs = r →
      made ≤ r.attemptsMade ∧ r.attemptsMade ≤ made + fuel ∧
      (r.terminal = Terminal.success →
        r.errs = [] ∧
        ∃ e a, env.outcome a = AttemptResult.completed r.response e ∧
          (shouldRetry rt (statusOf r.response) e).1 = false) ∧
      (r.terminal ≠ Terminal.success →
        r.errs = errs ++
          (List.range' attempt (r.attemptsMade - made)).filterMap (attemptRetryMsg rt env) ++
          terminalTail r.terminal) ∧
      r.backoffCalls = backs ++
        (List.range' attempt (r.attemptsMade - made)).filter (attemptBackoffCalled rt env) := by
  intro fuel
  induction fuel with
  | zero =>
    intro attempt errs made backs r hr
    have hr' : (⟨none, errs, made, backs, Terminal.loopEnd⟩ : RoundTripResult) = r := by
      rw [← hr]; simp [roundTripAux]
    subst hr'
    refine ⟨le_rfl, by show made ≤ made + 0; omega, ?_, ?_, by simp⟩
    · intro h; cases h
    · intro _; simp [terminalTail]
  | succ fuel ih =>
    intro attempt errs made backs r hr
    cases hcc : env.ctxCancelled attempt with
    | true =>
      have hr' :
          (⟨none, errs ++ [cancelledMsg], made, backs, Terminal.cancelled⟩ : RoundTripResult)
          = r := by
        rw [← hr]; simp [roundTripAux, hcc]
      subst hr'
      refine ⟨le_rfl, by show made ≤ made + (fuel + 1); omega, ?_, ?_, by simp⟩
      · intro h; cases h
      · intro _; simp [terminalTail]
    | false =>
      by_cases hlt : rt.maxRetries < (attempt : Int)
      · have hr' :
            (⟨none, errs ++ [maxRetriesMsg], made, backs, Terminal.exhausted⟩ : RoundTripResult)
            = r := by
          rw [← hr]; simp [roundTripAux, hcc, hlt]
        subst hr'
        refine ⟨le_rfl, by show made ≤ made + (fuel + 1); omega, ?_, ?_, by simp⟩
        · intro h; cases h
        · intro _; simp [terminalTail]
      · cases ho : env.outcome attempt with
        | timeout =>
          have hr' :
              roundTripAux rt env fuel (attempt + 1) (errs ++ [timeoutMsg attempt])
                (made + 1) backs = r := by
            rw [← hr]; simp [roundTripAux, hcc, hlt, ho]
          obtain ⟨h1, h2, h3, h4, h5⟩ := ih (attempt + 1) (errs ++ [timeoutMsg attempt])
            (made + 1) backs r hr'
          have hk : r.attemptsMade - made = (r.attemptsMade - (made + 1)) + 1 := by omega
          have hm : attemptRetryMsg rt env attempt = some (timeoutMsg attempt) := by
            simp [attemptRetryMsg, ho]
          have hb : attemptBackoffCalled rt env attempt = false := by
            simp [attemptBackoffCalled, ho]
          refine ⟨by omega, by omega, h3, ?_, ?_⟩
          · intro hns
            rw [h4 hns, hk, List.range'_succ, filterMap_cons_eq_toList_append, hm]
            simp
          · rw [h5, hk, List.range'_succ, List.filter_cons, hb]
            simp
        | completed resp respErr =>
          by_cases hv : (shouldRetry rt (statusOf resp) respErr).1 = true
          · have hr' :
                roundTripAux rt env fuel (attempt + 1)
                  (appendErr errs (wrapAttempt attempt (shouldRetry rt (statusOf resp) respErr).2))
                  (made + 1) (backs ++ [attempt]) = r := by
              rw [← hr]; simp [roundTripAux, hcc, hlt, ho, hv]
            obtain ⟨h1, h2, h3, h4, h5⟩ := ih (attempt + 1)
              (appendErr errs (wrapAttempt attempt (shouldRetry rt (statusOf resp) respErr).2))
              (made + 1) (backs ++ [attempt]) r hr'
            have hk : r.attemptsMade - made = (r.attemptsMade - (made + 1)) + 1 := by omega
            have hm : attemptRetryMsg rt env attempt =
                wrapAttempt attempt (shouldRetry rt (statusOf resp) respErr).2 := by
              simp [attemptRetryMsg, ho, hv]
            have hb : attemptBackoffCalled rt env attempt = true := by
              simp [attemptBackoffCalled, ho, hv]
            refine ⟨by omega, by omega, h3, ?_, ?_⟩
            · intro hns
              rw [h4 hns, hk, List.range'_succ, filterMap_cons_eq_toList_append, hm]
              simp [appendErr]
            · rw [h5, hk, List.range'_succ, List.filter_cons, hb]
              simp
          · have hv' : (shouldRetry rt (statusOf resp) respErr).1 = false := by
              simpa using hv
            have hr' : (⟨resp, [], made + 1, backs, Terminal.success⟩ : RoundTripResult) = r := by
              rw [← hr]; simp [roundTripAux, hcc, hlt, ho, hv']
            subst hr'
            refine ⟨by show made ≤ made + 1; omega,
              by show made + 1 ≤ made + (fuel + 1); omega, ?_, ?_, ?_⟩
            · intro _
              exact ⟨rfl, respErr, attempt, ho, hv'⟩
            · intro hns; exact absurd rfl hns
            · have hb : attemptBackoffCalled rt env attempt = false := by
                simp [attemptBackoffCalled, ho, hv']
              simp [List.range'_succ, List.filter_cons, hb]

/-- The `loopEnd` exit (the `for` condition failing) is unreachable from
an iteration whose attempt number still satisfies the loop condition,
given that the fuel accounts exactly for the remaining iterations. -/
theorem roundTripAux_ne_loopEnd (rt : RetriableTransport) (env : Env) :
    ∀ (fuel attempt : Nat) (errs : List String) (made : Nat) (backs : List Nat),
      (attempt : Int) + (fuel : Int) = rt.maxRetries + 2 →
      (attempt : Int) ≤ rt.maxRetries + 1 →
      (roundTripAux rt env fuel attempt errs made backs).terminal ≠ Terminal.loopEnd := by
  intro fuel
  induction fuel with
  | zero =>
    intro attempt errs made backs hsum hle
    exfalso
    omega
  | succ fuel ih =>
    intro attempt errs made backs hsum hle
    cases hcc : env.ctxCancelled attempt with
    | true => simp [roundTripAux, hcc]
    | false =>
      by_cases hlt : rt.maxRetries < (attempt : Int)
      · simp [roundTripAux, hcc, hlt]
      · cases ho : env.outcome attempt with
        | timeout =>
          have hstep :
              roundTripAux rt env (fuel + 1) attempt errs made backs =
              roundTripAux rt env fuel (attempt + 1) (errs ++ [timeoutMsg attempt])
                (made + 1) backs := by
            simp [roundTripAux, hcc, hlt, ho]
          rw [hstep]
          exact ih (attempt + 1) _ _ _ (by push_cast; omega) (by push_cast; omega)
        | completed resp respErr =>
          by_cases hv : (shouldRetry rt (statusOf resp) respErr).1 = true
          · have hstep :
                roundTripAux rt env (fuel + 1) attempt errs made backs =
                roundTripAux rt env fuel (attempt + 1)
                  (appendErr errs (wrapAttempt attempt (shouldRetry rt (statusOf resp) respErr).2))
                  (made + 1) (backs ++ [attempt]) := by
              simp [roundTripAux, hcc, hlt, ho, hv]
            rw [hstep]
            exact ih (attempt + 1) _ _ _ (by push_cast; omega) (by push_cast; omega)
          · have hv' : (shouldRetry rt (statusOf resp) respErr).1 = false := by simpa using hv
            simp [roundTripAux, hcc, hlt, ho, hv']

/-- With a non-negative retry budget whose int64 loop bound
`maxRetries + 1` does not overflow, `RoundTrip` always ends in one of
the three real terminal states, never by the loop condition failing
(at `maxRetries = 2^63 - 1` the wrapped bound is negative and the
`loopEnd` exit does fire). -/
theorem roundTrip_ne_loopEnd (rt : RetriableTransport) (env : Env)
    (h : 0 ≤ rt.maxRetries) (hub : rt.maxRetries < 9223372036854775807) :
    (roundTrip rt env).terminal ≠ Terminal.loopEnd := by
  unfold roundTrip
  rw [wrap64_eq_of_bounded (rt.maxRetries + 1) (by omega) (by omega)]
  exact roundTripAux_ne_loopEnd rt env (rt.maxRetries + 1).toNat 1 [] 0 []
    (by omega) (by omega)

theorem lookupStatus_append (m₁ m₂ : List (Int × String)) (c : Int) :
    lookupStatus (m₁ ++ m₂) c = (lookupStatus m₁ c).or (lookupStatus m₂ c) := by
  cases h : List.find? (fun p => p.1 == c) m₁ <;>
    simp [lookupStatus, List.find?_append, h]

theorem extendFold_preserve (l : List Int) :
    ∀ (m : List (Int × String)) (c : Int) (r : String),
      lookupStatus m c = some r → lookupStatus (l.foldl extendStep m) c = some r := by
  induction l with
  | nil => intro m c r h; simpa using h
  | cons code l ih =>
    intro m c r h
    simp only [List.foldl_cons]
    apply ih
    by_cases he : (lookupStatus m code).isSome
    · simpa [extendStep, he] using h
    · have hstep : extendStep m code = m ++ [(code, statusText code)] := by
        simp [extendStep, he]
      rw [hstep, lookupStatus_append, h]
      rfl

theorem extendFold_insert (l : List Int) :
    ∀ (m : List (Int × String)) (c : Int),
      c ∈ l → lookupStatus m c = none →
      lookupStatus (l.foldl extendStep m) c = some (statusText c) := by
  induction l with
  | nil =>
    intro m c hc _
    exact absurd hc (List.not_mem_nil c)
  | cons code l ih =>
    intro m c hc hnone
    simp only [List.foldl_cons]
    by_cases hceq : c = code
    · subst hceq
      have he : (lookupStatus m c).isSome = false := by simp [hnone]
      have hstep : extendStep m c = m ++ [(c, statusText c)] := by
        simp [extendStep, he]
      rw [hstep]
      apply extendFold_preserve
      rw [lookupStatus_append, hnone]
      simp [lookupStatus]
    · have hc' : c ∈ l := by
        rcases List.mem_cons.mp hc with h | h
        · exact absurd h hceq
        · exact h
      by_cases he : (lookupStatus m code).isSome
      · have hstep : extendStep m code = m := by simp [extendStep, he]
        rw [hstep]
        exact ih m c hc' hnone
      · have hstep : extendStep m code = m ++ [(code, statusText code)] := by
          simp [extendStep, he]
        rw [hstep]
        apply ih _ c hc'
        rw [lookupStatus_append, hnone]
        simp [lookupStatus, Ne.symm hceq]

/-- Within the non-overflowing range of attempt numbers, the default
backoff policy is exactly `2 ^ attempt` seconds. -/
theorem defaultBackoffPolicy_eq_pow (a : Nat) (h : a ≤ 33) :
    defaultBackoffPolicy a = 2 ^ a * second := by
  have hn : (1 <<< a : Nat) = 2 ^ a := Nat.one_shiftLeft a
  have hbound : (2 : Nat) ^ a ≤ 8589934592 := by
    calc (2 : Nat) ^ a ≤ 2 ^ 33 := Nat.pow_le_pow_right (by norm_num) h
    _ = 8589934592 := by norm_num
  have h0 : ((2 ^ a : Nat) : Int) ≤ 8589934592 := by exact_mod_cast hbound
  have h1 : (0 : Int) ≤ ((2 ^ a : Nat) : Int) := Int.natCast_nonneg _
  unfold defaultBackoffPolicy second
  rw [hn]
  rw [show wrap64 ((2 ^ a : Nat) : Int) = ((2 ^ a : Nat) : Int) from
    wrap64_eq_of_bounded _ (by omega) (by omega)]
  rw [wrap64_eq_of_bounded _ (by omega) (by omega)]
  push_cast
  ring

/-- C1: against the claimed 4 attempts, the code performs exactly 3
invocations of the underlying transport when `maxRetries = 3` and every
attempt completes with a registered retryable status (iteration 4 only
appends the `max retries reached` error and breaks): the exhaustion
error is returned, but after `maxRetries` attempts, not
`maxRetries + 1`. -/
theorem claim_C1_exhaustion_three_attempts :
    defaultClientTransport.maxRetries = 3 ∧
    (roundTrip defaultClientTransport envAlways503).attemptsMade = 3 ∧
    (roundTrip defaultClientTransport envAlways503).response = none ∧
    maxRetriesMsg ∈ (roundTrip defaultClientTransport envAlways503).errs := by
  decide

/-- C2: with a non-negative `maxRetries = N`, one call to `RoundTrip`
invokes the underlying transport at most `N + 1` times, whatever the
underlying transport and the request context do. -/
theorem claim_C2_attempt_bound (rt : RetriableTransport) (env : Env)
    (h : 0 ≤ rt.maxRetries) :
    ((roundTrip rt env).attemptsMade : Int) ≤ rt.maxRetries + 1 := by
  obtain ⟨-, h2, -, -, -⟩ :=
    roundTripAux_trace rt env (wrap64 (rt.maxRetries + 1)).toNat 1 [] 0 []
      (roundTrip rt env) rfl
  have hw : wrap64 (rt.maxRetries + 1) ≤ rt.maxRetries + 1 := by
    unfold wrap64
    omega
  omega

theorem claim_C2_witness :
    ((roundTrip defaultClientTransport envAlways503).attemptsMade : Int) ≤
      defaultClientTransport.maxRetries + 1 :=
  claim_C2_attempt_bound defaultClientTransport envAlways503 (by decide)

/-- C3 fails as stated: at `maxRetries = 2^63 - 1` (a non-negative,
int64-representable budget) Go evaluates the loop bound
`rt.maxRetries+1` in wrapping arithmetic, the bound becomes the most
negative int64, the loop body never runs, and `RoundTrip` returns a nil
response together with a nil error — no `cancelled from parent context`
reason, even though the context is already expired on entry. -/
theorem claim_C3_counterexample :
    (newRetriableTransport (some (NewHTTPSettings [WithMaxRetry 9223372036854775807]))
        [] goDefaultTransport).1.maxRetries = 9223372036854775807 ∧
    envPreCancelled.ctxCancelled 1 = true ∧
    roundTrip
      (newRetriableTransport (some (NewHTTPSettings [WithMaxRetry 9223372036854775807]))
        [] goDefaultTransport).1 envPreCancelled =
      ⟨none, [], 0, [], Terminal.loopEnd⟩ := by
  decide

/-- C3 amended: when the request context is already expired on entry
and the int64 loop bound `maxRetries + 1` does not overflow
(`0 ≤ maxRetries < 2^63 - 1`), `RoundTrip` performs zero attempts and
returns a nil response together with exactly the
`cancelled from parent context` error; at `maxRetries = 2^63 - 1` it
instead returns a nil response and a nil error without running the
loop. -/
theorem claim_C3_pre_cancelled (rt : RetriableTransport) (env : Env)
    (hmr : 0 ≤ rt.maxRetries) (hub : rt.maxRetries < 9223372036854775807)
    (hcc : env.ctxCancelled 1 = true) :
    roundTrip rt env = ⟨none, [cancelledMsg], 0, [], Terminal.cancelled⟩ := by
  unfold roundTrip
  rw [wrap64_eq_of_bounded (rt.maxRetries + 1) (by omega) (by omega)]
  obtain ⟨n, hn⟩ : ∃ n, (rt.maxRetries + 1).toNat = n + 1 :=
    ⟨rt.maxRetries.toNat, by omega⟩
  rw [hn]
  simp [roundTripAux, hcc]

theorem claim_C3_witness :
    roundTrip defaultClientTransport envPreCancelled =
      ⟨none, [cancelledMsg], 0, [], Terminal.cancelled⟩ :=
  claim_C3_pre_cancelled defaultClientTransport envPreCancelled (by decide)
    (by decide) rfl

/-- C4: the retry decision `shouldRetry` depends only on the error, the
status code and the registry: a present error always yields
`(true, that error)`; with no error, the verdict is exactly whether the
status code is registered, with the registered reason as the error. -/
theorem claim_C4_retry_decision :
    (∀ (rt : RetriableTransport) (sc : Int) (e : String),
      shouldRetry rt sc (some e) = (true, some e)) ∧
    (∀ (rt : RetriableTransport) (sc : Int),
      shouldRetry rt sc none =
        ((lookupStatus rt.retryStatusCodes sc).isSome,
          lookupStatus rt.retryStatusCodes sc)) := by
  refine ⟨fun rt sc e => rfl, fun rt sc => ?_⟩
  cases h : lookupStatus rt.retryStatusCodes sc <;> simp [shouldRetry, h]

/-- C5: the success exit discards all accumulated failures (nil error);
the exhausted and cancelled exits return the retry reason of every
performed attempt, in attempt order (each tagged with its attempt
number, via `attemptRetryMsg`), followed by the terminal reason. -/
theorem claim_C5_error_aggregation (rt : RetriableTransport) (env : Env) :
    ((roundTrip rt env).terminal = Terminal.success → (roundTrip rt env).errs = []) ∧
    ((roundTrip rt env).terminal = Terminal.exhausted →
      (roundTrip rt env).errs =
        (List.range' 1 (roundTrip rt env).attemptsMade).filterMap (attemptRetryMsg rt env)
          ++ [maxRetriesMsg]) ∧
    ((roundTrip rt env).terminal = Terminal.cancelled →
      (roundTrip rt env).errs =
        (List.range' 1 (roundTrip rt env).attemptsMade).filterMap (attemptRetryMsg rt env)
          ++ [cancelledMsg]) := by
  obtain ⟨-, -, h3, h4, -⟩ :=
    roundTripAux_trace rt env (wrap64 (rt.maxRetries + 1)).toNat 1 [] 0 []
      (roundTrip rt env) rfl
  refine ⟨fun hs => (h3 hs).1, fun hx => ?_, fun hc => ?_⟩
  · have hns : (roundTrip rt env).terminal ≠ Terminal.success := by rw [hx]; decide
    rw [h4 hns, hx]
    simp [terminalTail]
  · have hns : (roundTrip rt env).terminal ≠ Terminal.success := by rw [hc]; decide
    rw [h4 hns, hc]
    simp [terminalTail]

theorem claim_C5_witness :
    (roundTrip defaultClientTransport envAlways503).errs =
      (List.range' 1 (roundTrip defaultClientTransport envAlways503).attemptsMade).filterMap
        (attemptRetryMsg defaultClientTransport envAlways503) ++ [maxRetriesMsg] :=
  (claim_C5_error_aggregation defaultClientTransport envAlways503).2.1 (by decide)

/-- C6 fails as stated: here attempt 1 is retried (per-attempt timeout)
and attempt 2 is retried (503), yet the backoff policy is invoked only
with attempt number 2 — the timeout branch of the loop never invokes
backoff, so the invocation sequence skips attempt number 1. -/
theorem claim_C6_counterexample :
    (roundTrip
      (newRetriableTransport (some (NewHTTPSettings [WithMaxRetry 2])) [] goDefaultTransport).1
      envTimeoutThen503).attemptsMade = 2 ∧
    (roundTrip
      (newRetriableTransport (some (NewHTTPSettings [WithMaxRetry 2])) [] goDefaultTransport).1
      envTimeoutThen503).terminal = Terminal.exhausted ∧
    (roundTrip
      (newRetriableTransport (some (NewHTTPSettings [WithMaxRetry 2])) [] goDefaultTransport).1
      envTimeoutThen503).backoffCalls = [2] := by
  decide

/-- C6 amended: the backoff policy is invoked exactly for the performed
attempts whose completed outcome had a retryable verdict, each with that
attempt's number; the invocation sequence is strictly increasing (never
repeating), but attempts retried because of a per-attempt timeout are
skipped. -/
theorem claim_C6_backoff_calls (rt : RetriableTransport) (env : Env) :
    (roundTrip rt env).backoffCalls =
      (List.range' 1 (roundTrip rt env).attemptsMade).filter (attemptBackoffCalled rt env) ∧
    List.Pairwise (fun a b => a < b) (roundTrip rt env).backoffCalls := by
  obtain ⟨-, -, -, -, h5⟩ :=
    roundTripAux_trace rt env (wrap64 (rt.maxRetries + 1)).toNat 1 [] 0 []
      (roundTrip rt env) rfl
  have he : (roundTrip rt env).backoffCalls =
      (List.range' 1 (roundTrip rt env).attemptsMade).filter
        (attemptBackoffCalled rt env) := by
    simpa using h5
  refine ⟨he, ?_⟩
  rw [he]
  exact (List.pairwise_lt_range' 1 _).filter _

/-- C7 fails as stated: if the underlying transport completes with a nil
response and a nil error, `shouldRetry` answers `false` and `RoundTrip`
executes `return response, nil` — returning a nil response together
with a nil error instead of the aggregated error. -/
theorem claim_C7_counterexample :
    (roundTrip defaultClientTransport envNilNil).response = none ∧
    (roundTrip defaultClientTransport envNilNil).errs = [] ∧
    (roundTrip defaultClientTransport envNilNil).terminal = Terminal.success ∧
    (roundTrip defaultClientTransport envNilNil).attemptsMade = 1 := by
  decide

/-- C7 amended: the non-retry exit returns `(response, nil)`
unconditionally, so `RoundTrip` can return both a nil response and a nil
error — when some completed attempt offers neither a response nor an
error, or when `maxRetries = 2^63 - 1` makes the wrapped int64 loop
bound negative so the loop never runs; whenever the underlying transport
honours the `RoundTripper` contract (every completed attempt carries a
response or an error) and the retry budget satisfies
`0 ≤ maxRetries < 2^63 - 1`, `RoundTrip` never returns both a nil
response and a nil error. -/
theorem claim_C7_no_nil_nil (rt : RetriableTransport) (env : Env)
    (hmr : 0 ≤ rt.maxRetries) (hub : rt.maxRetries < 9223372036854775807)
    (hok : ∀ a, env.outcome a ≠ AttemptResult.completed none none) :
    ¬((roundTrip rt env).response = none ∧ (roundTrip rt env).errs = []) := by
  obtain ⟨-, -, h3, h4, -⟩ :=
    roundTripAux_trace rt env (wrap64 (rt.maxRetries + 1)).toNat 1 [] 0 []
      (roundTrip rt env) rfl
  rintro ⟨hresp, herrs⟩
  cases hterm : (roundTrip rt env).terminal with
  | success =>
    obtain ⟨-, e, a, hout, hsr⟩ := h3 hterm
    rw [hresp] at hout hsr
    cases e with
    | none => exact hok a hout
    | some m => simp [shouldRetry] at hsr
  | exhausted =>
    have h := h4 (by rw [hterm]; decide)
    rw [herrs, hterm] at h
    simp [terminalTail] at h
  | cancelled =>
    have h := h4 (by rw [hterm]; decide)
    rw [herrs, hterm] at h
    simp [terminalTail] at h
  | loopEnd => exact roundTrip_ne_loopEnd rt env hmr hub hterm

theorem claim_C7_witness :
    ¬((roundTrip defaultClientTransport envAlways503).response = none ∧
      (roundTrip defaultClientTransport envAlways503).errs = []) :=
  claim_C7_no_nil_nil defaultClientTransport envAlways503 (by decide) (by decide)
    (fun a => by simp [envAlways503])

/-- C8: the extended registry keeps every default entry, maps each
additional code that is not a default key to `http.StatusText` of that
code, and an empty additional list yields exactly the defaults (the
default map is a constant of the embedding and is never changed —
`extendDefault` always builds a fresh list starting from a copy). -/
theorem claim_C8_extend_registry (additional : List Int) :
    (∀ (c : Int) (r : String),
      lookupStatus defaultRetryStatusMap c = some r →
      lookupStatus (extendDefault additional) c = some r) ∧
    (∀ c : Int, c ∈ additional →
      lookupStatus defaultRetryStatusMap c = none →
      lookupStatus (extendDefault additional) c = some (statusText c)) ∧
    extendDefault [] = defaultRetryStatusMap := by
  refine ⟨?_, ?_, rfl⟩
  · intro c r h
    exact extendFold_preserve additional defaultRetryStatusMap c r h
  · intro c hc h
    exact extendFold_insert additional defaultRetryStatusMap c hc h

theorem claim_C8_witness :
    lookupStatus (extendDefault [404]) 404 = some (statusText 404) :=
  (claim_C8_extend_registry [404]).2.1 404 (by decide) (by decide)

/-- C9 fails as stated: with nil settings, `NewHTTPSettings` hard-codes
`Insecure: true`, so the transport built by `newRetriableTransport` has
`InsecureSkipVerify = true`, not the claimed secure default. -/
theorem claim_C9_counterexample :
    (NewHTTPSettings []).insecure = true ∧
    (newRetriableTransport none [] goDefaultTransport).2.insecureSkipVerify = true := by
  decide

/-- C9 amended: nil settings give `maxRetries = 3`, a per-attempt
timeout of 10 seconds, insecure TLS = true, and the exponential default
backoff `2 ^ attempt` seconds (exact within the non-overflowing attempt
range of Go's 64-bit duration arithmetic). -/
theorem claim_C9_nil_settings_defaults :
    (newRetriableTransport none [] goDefaultTransport).1.maxRetries = 3 ∧
    (newRetriableTransport none [] goDefaultTransport).1.requestTimeout = 10 * second ∧
    (newRetriableTransport none [] goDefaultTransport).2.insecureSkipVerify = true ∧
    ∀ a : Nat, a ≤ 33 →
      (newRetriableTransport none [] goDefaultTransport).1.backoffPolicy a =
        2 ^ a * second := by
  refine ⟨rfl, rfl, rfl, ?_⟩
  intro a ha
  exact defaultBackoffPolicy_eq_pow a ha

theorem claim_C9_witness :
    (newRetriableTransport none [] goDefaultTransport).1.backoffPolicy 3 = 2 ^ 3 * second :=
  claim_C9_nil_settings_defaults.2.2.2 3 (by decide)

/-- C10: client construction overwrites the fields of the one shared
default transport in place (modelled by explicit state passing), so
building a second client erases the first client's transport settings —
the final shared transport is exactly what the second construction alone
would produce, its overwritten fields come from the last settings used,
and the untouched fields pass through. -/
theorem claim_C10_shared_default_transport (s1 s2 : Settings) (t : HTTPTransport) :
    (newRetriableTransport (some s2) []
        ((newRetriableTransport (some s1) [] t).2)).2 =
      (newRetriableTransport (some s2) [] t).2 ∧
    (newRetriableTransport (some s2) [] t).2.maxIdleConns = s2.maxIdleConns ∧
    (newRetriableTransport (some s2) [] t).2.idleConnTimeout = s2.idleConnTimeout ∧
    (newRetriableTransport (some s2) [] t).2.tlsHandshakeTimeout = s2.tlsHandshakeTimeout ∧
    (newRetriableTransport (some s2) [] t).2.expectContinueTimeout =
      s2.expectContinueTimeout ∧
    (newRetriableTransport (some s2) [] t).2.responseHeaderTimeout =
      s2.responseHeaderTimeout ∧
    (newRetriableTransport (some s2) [] t).2.insecureSkipVerify = s2.insecure ∧
    (newRetriableTransport (some s2) [] t).2.forceAttemptHTTP2 = t.forceAttemptHTTP2 := by
  refine ⟨rfl, rfl, rfl, rfl, rfl, rfl, ?_, rfl⟩
  cases h : s2.insecure <;>
    simp [newRetriableTransport, applyTransportSettings, h]
